import Mathlib

/-!
A verification development for the 2-D label-drawing module (`2D.cpp`) of the
XPMP2 library.  Floating-point values of the C++ code are modelled as exact
rationals (`ℚ`), machine `int`s as `ℤ`; host-provided facilities (text
measurement, data refs, the drawing primitives) are parameters or emitted
call descriptions.  Definitions mirror the source functions of `src/2D.cpp`.
-/

namespace XPMP2

/-- A 4-vector given by its four components; `vec4 a b c d i` is component
`i`.  This is the `float[4]` array of the source. -/
def vec4 (a b c d : ℚ) : Fin 4 → ℚ :=
  fun i => if i = 0 then a else if i = 1 then b else if i = 2 then c else d

/-- The per-frame view state read by `read_matrices` (`2D.cpp` lines 44-51):
world matrix, projection matrix, screen size and field of view.  A 4×4 matrix
`m` is the function sending `j i` to the flat entry `m[j*4+i]` of the C++
float array. -/
structure FrameState where
  matrixWrld : Fin 4 → Fin 4 → ℚ
  matrixProj : Fin 4 → Fin 4 → ℚ
  screenW : ℚ
  screenH : ℚ
  fov : ℚ

/-- `mult_matrix_vec` (`2D.cpp` lines 54-60): 4×4 matrix transform of an XYZW
coordinate in OpenGL convention, `dst[i] = Σ_j v[j]*m[j*4+i]`. -/
def mult_matrix_vec (m : Fin 4 → Fin 4 → ℚ) (v : Fin 4 → ℚ) : Fin 4 → ℚ :=
  fun i => v 0 * m 0 i + v 1 * m 1 i + v 2 * m 2 i + v 3 * m 3 i

/-- Result of `ConvertTo2d`: the two out-parameters and the returned
visibility flag. -/
structure ProjectionResult where
  out_x : ℤ
  out_y : ℤ
  visible : Bool
  deriving DecidableEq

/-- `ConvertTo2d` (`2D.cpp` lines 83-109): converts 3-D local coordinates to
2-D screen coordinates.  `modern` is `glob.UsingModernGraphicsDriver()`:
the Vulkan-style backend clips NDC depth to `[0,1]`, the OpenGL-style one to
`[-1,1]`. -/
def ConvertTo2d (modern : Bool) (fs : FrameState) (x y z : ℚ) :
    ProjectionResult :=
  let afPos : Fin 4 → ℚ := vec4 x y z 1
  let afEye : Fin 4 → ℚ := mult_matrix_vec fs.matrixWrld afPos
  let afNdc : Fin 4 → ℚ := mult_matrix_vec fs.matrixProj afEye
  let invW : ℚ := 1 / afNdc 3
  let ndcX : ℚ := afNdc 0 * invW
  let ndcY : ℚ := afNdc 1 * invW
  let ndcZv : ℚ := afNdc 2 * invW
  { out_x := round (fs.screenW * (ndcX * (1/2 : ℚ) + 1/2))
    out_y := round (fs.screenH * (ndcY * (1/2 : ℚ) + 1/2))
    visible := if modern then decide ((0:ℚ) ≤ ndcZv ∧ ndcZv ≤ 1)
               else decide ((-1:ℚ) ≤ ndcZv ∧ ndcZv ≤ 1) }

/-- The clip-space vector of a point: position promoted to homogeneous
coordinates, transformed by the world matrix and then the projection matrix,
exactly as inside `ConvertTo2d`. -/
def clipVec (fs : FrameState) (x y z : ℚ) : Fin 4 → ℚ :=
  mult_matrix_vec fs.matrixProj
    (mult_matrix_vec fs.matrixWrld (vec4 x y z 1))

/-- The normalized device depth computed inside `ConvertTo2d`
(`afNdc[2]` after the perspective divide of lines 94-97). -/
def ndcZ (fs : FrameState) (x y z : ℚ) : ℚ :=
  clipVec fs x y z 2 * (1 / clipVec fs x y z 3)

/-- `read_matrices` (`2D.cpp` lines 64-76) as a pure frame-state builder:
it stores the two matrices, screen size and field of view read from the
host into the frame state. -/
def read_matrices (mWrld mProj : Fin 4 → Fin 4 → ℚ)
    (screenW screenH fov : ℚ) : FrameState :=
  { matrixWrld := mWrld, matrixProj := mProj,
    screenW := screenW, screenH := screenH, fov := fov }

/-- The projection pipeline exactly as the spec words it (spec §4.2):
form the homogeneous vector `(x,y,z,1)`; transform by the world matrix as a
row vector (`dst[i] = Σ_j v[j]*m[j*4+i]`); transform the result the same way
by the projection matrix; divide the components by `w'`; then
`screenX = round(screenWidth*(ndcX*0.5+0.5))` and
`screenY = round(screenHeight*(ndcY*0.5+0.5))`. -/
def project_spec (fs : FrameState) (x y z : ℚ) : ℤ × ℤ :=
  let v : Fin 4 → ℚ := vec4 x y z 1
  let eye : Fin 4 → ℚ := fun i =>
    v 0 * fs.matrixWrld 0 i + v 1 * fs.matrixWrld 1 i +
    v 2 * fs.matrixWrld 2 i + v 3 * fs.matrixWrld 3 i
  let clip : Fin 4 → ℚ := fun i =>
    eye 0 * fs.matrixProj 0 i + eye 1 * fs.matrixProj 1 i +
    eye 2 * fs.matrixProj 2 i + eye 3 * fs.matrixProj 3 i
  let ndcX : ℚ := clip 0 / clip 3
  let ndcY : ℚ := clip 1 / clip 3
  (round (fs.screenW * (ndcX * (1/2 : ℚ) + 1/2)),
   round (fs.screenH * (ndcY * (1/2 : ℚ) + 1/2)))

/-- The tri-state label override configuration (`glob.eLabelOverride`):
`SWITCH_CFG_AUTO`, `SWITCH_CFG_ON` (force on), `SWITCH_CFG_OFF` (force off). -/
inductive LabelOverride where
  | SWITCH_CFG_AUTO : LabelOverride
  | SWITCH_CFG_ON : LabelOverride
  | SWITCH_CFG_OFF : LabelOverride
  deriving DecidableEq

export LabelOverride (SWITCH_CFG_AUTO SWITCH_CFG_ON SWITCH_CFG_OFF)

/-- An RGBA colour (four floats in the source). -/
structure RGBA where
  r : ℚ
  g : ℚ
  b : ℚ
  a : ℚ
  deriving DecidableEq

/-- The slice of the Doc8643 record used here: `wtc0` stands for `wtc[0]`,
the first character of the wake-turbulence category string. -/
structure Doc8643 where
  wtc0 : Char
  deriving DecidableEq

/-- The slice of a CSL model record used here: its Doc8643 data. -/
structure CSLModel where
  doc8643 : Doc8643
  deriving DecidableEq

/-- The per-aircraft data read by `TwoDDrawLabels`: render state, label
flag, camera distance, the (optional) CSL model, the draw position, label
texts and colours.  `failure` models an unexpected exception raised while
processing this aircraft (see `CATCH_AC`). -/
structure Aircraft where
  isRendered : Bool
  shallDrawLabel : Bool
  cameraDist : ℚ
  model : Option CSLModel
  drawInfo_x : ℚ
  drawInfo_y : ℚ
  drawInfo_z : ℚ
  label : String
  subLabel : String
  colLabel : RGBA
  colBackground : RGBA
  failure : Option String

/-- A drawing command issued to the host renderer: either the translucent
background box of `DrawTranslucentBox` (`2D.cpp` lines 111-136) or an
`XPLMDrawString` text call. -/
inductive HostCall where
  | translucentBox (left top right bottom : ℤ) (col : RGBA) : HostCall
  | drawString (col : RGBA) (x y : ℤ) (text : String) : HostCall
  deriving DecidableEq

/-- The global configuration state read by `TwoDDrawLabels` and written by
`XPMPSetAircraftLabelDist`. -/
structure Glob where
  bDrawLabels : Bool
  eLabelOverride : LabelOverride
  maxLabelDist : ℚ
  bLabelCutOffAtVisibility : Bool
  deriving DecidableEq

/-- The vertical label offset of `TwoDDrawLabels` (`2D.cpp` lines 180-188):
starts at 10, and if a CSL model is present is switched on the first
character of the wake-turbulence category: 6 for 'L', 11 for 'H'. -/
def vertLabelOfs (model : Option CSLModel) : ℚ :=
  match model with
  | none => 10
  | some pCSLMdl =>
    match pCSLMdl.doc8643.wtc0 with
    | 'L' => 6
    | 'H' => 11
    | _ => 10

/-- The fixed semi-transparent gray used for the sub-label
(`2D.cpp` line 217). -/
def gray : RGBA := { r := 1, g := 1, b := 1, a := 3/5 }

/-- The drawing tail of the aircraft loop (`2D.cpp` lines 198-220): measure
both labels, take the wider as box width, centre the box at the projected x,
emit the translucent box, the main label and (when non-empty) the
sub-label.  `measure` is the host's `XPLMMeasureString` facility. -/
def drawLabelCalls (measure : String → ℤ) (ac : Aircraft) (x y : ℤ) :
    List HostCall :=
  let labelWidth : ℤ := measure ac.label
  let subLabelWidth : ℤ := measure ac.subLabel
  let boxWidth : ℤ := if subLabelWidth > labelWidth then subLabelWidth
                      else labelWidth
  let boxXStart : ℤ := x - boxWidth / 2
  HostCall.translucentBox (boxXStart - 5) (y + 15) (boxXStart + boxWidth + 5)
      (y - 10) ac.colBackground ::
    HostCall.drawString ac.colLabel (boxXStart + (boxWidth - labelWidth) / 2)
      y ac.label ::
    (if ac.subLabel ≠ "" then
      [HostCall.drawString gray (boxXStart + (boxWidth - subLabelWidth) / 2)
        (y - 25) ac.subLabel]
     else [])

/-- The body of the aircraft loop of `TwoDDrawLabels` (`2D.cpp` lines
166-220): skip if not rendered, or if the label flag is off and the override
is not `SWITCH_CFG_ON`; skip if the camera distance exceeds the maximum
label distance; project the position raised by the vertical label offset
and skip if not visible; otherwise emit the drawing calls. -/
def labelBody (modern : Bool) (fs : FrameState) (maxLabelD : ℚ)
    (eLabelOverride : LabelOverride) (measure : String → ℤ)
    (ac : Aircraft) : List HostCall :=
  if ac.isRendered = false ∨
     ¬ (ac.shallDrawLabel = true ∨ eLabelOverride = SWITCH_CFG_ON) then []
  else if ac.cameraDist > maxLabelD then []
  else
    let pr := ConvertTo2d modern fs ac.drawInfo_x
                (ac.drawInfo_y + vertLabelOfs ac.model) ac.drawInfo_z
    if pr.visible = false then []
    else drawLabelCalls measure ac pr.out_x pr.out_y

/-- Modelled from the spec: whether processing one aircraft raises an
unexpected failure is decided by code outside this file (the host calls and
the aircraft data); the spec says "Per-aircraft failures ... catch and skip
that aircraft, continuing to the next".  We model a failing aircraft by its
`failure` field: its processing raises instead of returning drawing calls. -/
def labelBodyE (modern : Bool) (fs : FrameState) (maxLabelD : ℚ)
    (eLabelOverride : LabelOverride) (measure : String → ℤ)
    (ac : Aircraft) : Except String (List HostCall) :=
  match ac.failure with
  | some e => Except.error e
  | none => Except.ok (labelBody modern fs maxLabelD eLabelOverride measure ac)

/-- Modelled from the spec: the `CATCH_AC` macro (defined outside this
file) catches any failure raised while processing one aircraft, logs it and
continues with the next aircraft; the failing aircraft's label is not
drawn. -/
def CATCH_AC (r : Except String (List HostCall)) : List HostCall :=
  match r with
  | Except.ok calls => calls
  | Except.error _ => []

/-- The aircraft loop of `TwoDDrawLabels` (`2D.cpp` lines 163-223): process
each aircraft in turn, collecting its drawing calls, with per-aircraft
failures caught by `CATCH_AC`. -/
def passCalls (modern : Bool) (fs : FrameState) (maxLabelD : ℚ)
    (eLabelOverride : LabelOverride) (measure : String → ℤ) :
    List Aircraft → List HostCall
  | [] => []
  | ac :: rest =>
      CATCH_AC (labelBodyE modern fs maxLabelD eLabelOverride measure ac) ++
      passCalls modern fs maxLabelD eLabelOverride measure rest

/-- The maximum label-drawing distance of `TwoDDrawLabels` (`2D.cpp` lines
158-160): the minimum of the configured maximum and the effective
visibility distance, scaled by the camera zoom factor. -/
def maxLabelDist (configuredMaxDistance effectiveVisibilityDistance
    cameraZoom : ℚ) : ℚ :=
  min configuredMaxDistance effectiveVisibilityDistance * cameraZoom

/-- The result of one label pass: whether the frame state was refreshed
(`read_matrices` was called) and the drawing calls issued. -/
structure PassResult where
  didRefresh : Bool
  calls : List HostCall
  deriving DecidableEq

/-- `TwoDDrawLabels` (`2D.cpp` lines 145-224): short-circuit if label
drawing is switched off or the override is `SWITCH_CFG_OFF`; otherwise
refresh the frame state, compute the maximum label distance (capped at the
effective visibility when configured and available) and run the aircraft
loop.  `visibility` is `XPLMGetDataf(drVisibility)` when that data ref is
available, `zoom` is `posCamera.zoom`. -/
def TwoDDrawLabels (glob : Glob) (modern : Bool) (fs : FrameState)
    (visibility : Option ℚ) (zoom : ℚ) (measure : String → ℤ)
    (mapAc : List Aircraft) : PassResult :=
  if glob.bDrawLabels = false ∨ glob.eLabelOverride = SWITCH_CFG_OFF then
    { didRefresh := false, calls := [] }
  else
    let maxLabelD : ℚ :=
      maxLabelDist glob.maxLabelDist
        (if glob.bLabelCutOffAtVisibility = true ∧ visibility.isSome = true
         then visibility.getD glob.maxLabelDist else glob.maxLabelDist) zoom
    { didRefresh := true
      calls := passCalls modern fs maxLabelD glob.eLabelOverride measure mapAc }

/-- Modelled from the spec: the conversion constant `M_per_NM` is defined
outside this file; the spec gives the conversion "maximum label distance in
nautical miles (converted internally to meters)" with 1 NM = 1852 m. -/
def M_per_NM : ℚ := 1852

/-- `XPMPSetAircraftLabelDist` (`2D.cpp` lines 334-338): store the cut-off
flag and the maximum label distance `max(dist_nm, 1) * M_per_NM` in
meters. -/
def XPMPSetAircraftLabelDist (glob : Glob) (dist_nm : ℚ)
    (bCutOffAtVisibility : Bool) : Glob :=
  { glob with bLabelCutOffAtVisibility := bCutOffAtVisibility,
              maxLabelDist := max dist_nm 1 * M_per_NM }

/-- The identity 4×4 matrix, for concrete instances. -/
def idMat : Fin 4 → Fin 4 → ℚ := fun j i => if j = i then 1 else 0

/-- A concrete frame state: identity matrices, an 800×600 screen, 60° field
of view. -/
def fsId : FrameState :=
  { matrixWrld := idMat, matrixProj := idMat,
    screenW := 800, screenH := 600, fov := 60 }

/-- A concrete rendered aircraft at the origin whose own label flag is
off. -/
def acLabelOff : Aircraft :=
  { isRendered := true, shallDrawLabel := false, cameraDist := 0,
    model := none, drawInfo_x := 0, drawInfo_y := 0, drawInfo_z := 0,
    label := "N123AB", subLabel := "B738",
    colLabel := { r := 0, g := 1, b := 0, a := 1 },
    colBackground := { r := 0, g := 0, b := 0, a := 1/4 },
    failure := none }

/-- A concrete aircraft whose processing raises an unexpected failure. -/
def acBad : Aircraft := { acLabelOff with failure := some ("exception") }

end XPMP2

namespace XPMP2

/-- C1: visibility of a projected point is exactly the backend-specific
range check on the normalized device depth. -/
theorem convertTo2d_visible_iff (modern : Bool) (fs : FrameState) (x y z : ℚ) :
    (ConvertTo2d modern fs x y z).visible = false ↔
      ¬ ((if modern then (0:ℚ) ≤ ndcZ fs x y z else (-1:ℚ) ≤ ndcZ fs x y z) ∧
         ndcZ fs x y z ≤ 1) := by
  cases modern <;>
    simp [ConvertTo2d, ndcZ, clipVec, decide_eq_false_iff_not]

/-- C2: the pixel coordinates produced by `ConvertTo2d` are exactly those of
the spec's projection pipeline `project_spec`. -/
theorem convertTo2d_matches_spec (modern : Bool) (fs : FrameState)
    (x y z : ℚ) :
    ((ConvertTo2d modern fs x y z).out_x, (ConvertTo2d modern fs x y z).out_y)
      = project_spec fs x y z := by
  simp [ConvertTo2d, project_spec, mult_matrix_vec, div_eq_mul_inv, one_div]

/-- C3 counterexample: with label drawing globally disabled but the
override mode forcing labels on, the pass still does no work at all (no
frame-state refresh, no drawing calls), although the claim says it should
run. -/
theorem twoDDrawLabels_forceOn_still_short_circuits :
    TwoDDrawLabels
      { bDrawLabels := false, eLabelOverride := SWITCH_CFG_ON,
        maxLabelDist := 1852, bLabelCutOffAtVisibility := false }
      false fsId none 1 (fun _ => 40) [acLabelOff] =
    { didRefresh := false, calls := [] } := by
  rfl

/-- C3 amended: the label pass does no work at all exactly when label
drawing is globally disabled or the override mode is FORCE_OFF; a FORCE_ON
override does not revive the pass when the global flag is off. -/
theorem twoDDrawLabels_no_work_iff (glob : Glob) (modern : Bool)
    (fs : FrameState) (visibility : Option ℚ) (zoom : ℚ)
    (measure : String → ℤ) (mapAc : List Aircraft) :
    ((TwoDDrawLabels glob modern fs visibility zoom measure mapAc).didRefresh
        = false ∧
     (TwoDDrawLabels glob modern fs visibility zoom measure mapAc).calls
        = []) ↔
      (glob.bDrawLabels = false ∨ glob.eLabelOverride = SWITCH_CFG_OFF) := by
  by_cases h : glob.bDrawLabels = false ∨ glob.eLabelOverride = SWITCH_CFG_OFF
  · simp [TwoDDrawLabels, h]
  · simp [TwoDDrawLabels, h]

/-- C4: the maximum label distance `min(configured, effective visibility) *
zoom` is monotone non-decreasing in the camera zoom factor and monotone
non-increasing as the effective visibility cutoff shrinks, for non-negative
distances and zoom. -/
theorem maxLabelDist_monotone (cfg vis vis2 zoom zoom2 : ℚ)
    (hcfg : 0 ≤ cfg) (hvis : 0 ≤ vis) (hzoom : 0 ≤ zoom) :
    (zoom ≤ zoom2 → maxLabelDist cfg vis zoom ≤ maxLabelDist cfg vis zoom2) ∧
    (vis2 ≤ vis → maxLabelDist cfg vis2 zoom ≤ maxLabelDist cfg vis zoom) := by
  constructor
  · intro h
    exact mul_le_mul_of_nonneg_left h (le_min hcfg hvis)
  · intro h
    exact mul_le_mul_of_nonneg_right (min_le_min le_rfl h) hzoom

/-- Witness for C4 at concrete inputs. -/
theorem maxLabelDist_monotone_witness :
    (0:ℚ) ≤ 18520 ∧ (0:ℚ) ≤ 10000 ∧ (0:ℚ) ≤ 1 ∧
    (((1:ℚ) ≤ 3 →
        maxLabelDist 18520 10000 1 ≤ maxLabelDist 18520 10000 3) ∧
     ((5000:ℚ) ≤ 10000 →
        maxLabelDist 18520 5000 1 ≤ maxLabelDist 18520 10000 1)) :=
  ⟨by norm_num, by norm_num, by norm_num,
   maxLabelDist_monotone 18520 10000 5000 1 3
     (by norm_num) (by norm_num) (by norm_num)⟩

/-- C5: the vertical label offset is 6 for wake-turbulence category 'L',
11 for 'H', and 10 for every other category code as well as when there is
no CSL model. -/
theorem vertLabelOfs_cases (pCSLMdl : CSLModel) :
    vertLabelOfs (some pCSLMdl) =
      (if pCSLMdl.doc8643.wtc0 = 'L' then 6
       else if pCSLMdl.doc8643.wtc0 = 'H' then 11 else 10) ∧
    vertLabelOfs none = 10 := by
  constructor
  · by_cases hL : pCSLMdl.doc8643.wtc0 = 'L'
    · simp [vertLabelOfs, hL]
    · by_cases hH : pCSLMdl.doc8643.wtc0 = 'H'
      · simp [vertLabelOfs, hL, hH]
      · simp [vertLabelOfs, hL, hH]
  · rfl

/-- C6: an aircraft whose own label flag is off gets no drawing call when
the override is AUTO, but does get drawing calls when the override is
FORCE_ON, provided the remaining gates (rendered, within label distance,
projection visible) pass. -/
theorem labelBody_labelFlagOff (modern : Bool) (fs : FrameState)
    (maxLabelD : ℚ) (measure : String → ℤ) (ac : Aircraft)
    (hoff : ac.shallDrawLabel = false) :
    labelBody modern fs maxLabelD SWITCH_CFG_AUTO measure ac = [] ∧
    (ac.isRendered = true → ac.cameraDist ≤ maxLabelD →
     (ConvertTo2d modern fs ac.drawInfo_x
        (ac.drawInfo_y + vertLabelOfs ac.model) ac.drawInfo_z).visible
        = true →
     labelBody modern fs maxLabelD SWITCH_CFG_ON measure ac ≠ []) := by
  constructor
  · simp [labelBody, hoff]
  · intro hr hd hv
    have h2 : ¬(ac.cameraDist > maxLabelD) := not_lt.mpr hd
    simp [labelBody, hr, h2, hv, drawLabelCalls]

/-- Witness for C6 at a concrete aircraft and frame state. -/
theorem labelBody_labelFlagOff_witness :
    acLabelOff.shallDrawLabel = false ∧
    labelBody false fsId 1 SWITCH_CFG_AUTO (fun _ => 40) acLabelOff = [] ∧
    labelBody false fsId 1 SWITCH_CFG_ON (fun _ => 40) acLabelOff ≠ [] := by
  have h := labelBody_labelFlagOff false fsId 1 (fun _ => 40) acLabelOff rfl
  refine ⟨rfl, h.1, h.2 rfl (by norm_num [acLabelOff]) ?_⟩
  norm_num +decide [ConvertTo2d, mult_matrix_vec, vec4, fsId, idMat,
    acLabelOff, vertLabelOfs]

/-- C7: a failing aircraft anywhere in the pass contributes no drawing
calls, and the aircraft before and after it are processed exactly as they
would be on their own: the pass never aborts because of one aircraft. -/
theorem passCalls_failure_isolated (modern : Bool) (fs : FrameState)
    (maxLabelD : ℚ) (eLabelOverride : LabelOverride)
    (measure : String → ℤ) (pre post : List Aircraft) (bad : Aircraft)
    (e : String) (hbad : bad.failure = some e) :
    passCalls modern fs maxLabelD eLabelOverride measure
        (pre ++ bad :: post) =
      passCalls modern fs maxLabelD eLabelOverride measure pre ++
      passCalls modern fs maxLabelD eLabelOverride measure post := by
  induction pre with
  | nil => simp [passCalls, labelBodyE, hbad, CATCH_AC]
  | cons a l ih => simp [passCalls, ih]

/-- Witness for C7 at a concrete pass with a failing middle aircraft. -/
theorem passCalls_failure_isolated_witness :
    acBad.failure = some ("exception") ∧
    passCalls false fsId 1 SWITCH_CFG_ON (fun _ => 40)
        [acLabelOff, acBad, acLabelOff] =
      passCalls false fsId 1 SWITCH_CFG_ON (fun _ => 40) [acLabelOff] ++
      passCalls false fsId 1 SWITCH_CFG_ON (fun _ => 40) [acLabelOff] :=
  ⟨rfl,
   passCalls_failure_isolated false fsId 1 SWITCH_CFG_ON (fun _ => 40)
     [acLabelOff] [acLabelOff] acBad ("exception") rfl⟩

/-- C8: every drawn label's background box has width equal to the maximum
of the two measured label widths, is centred at the projected x, and the
translucent quad spans from (boxLeft−5, y+15) to (boxLeft+boxWidth+5,
y−10), hence is boxWidth+10 pixels wide. -/
theorem drawLabelCalls_box (measure : String → ℤ) (ac : Aircraft)
    (x y : ℤ) :
    (drawLabelCalls measure ac x y).head? =
      some (HostCall.translucentBox
        (x - max (measure ac.label) (measure ac.subLabel) / 2 - 5) (y + 15)
        (x - max (measure ac.label) (measure ac.subLabel) / 2 +
          max (measure ac.label) (measure ac.subLabel) + 5) (y - 10)
        ac.colBackground) ∧
    (x - max (measure ac.label) (measure ac.subLabel) / 2 +
       max (measure ac.label) (measure ac.subLabel) + 5) -
      (x - max (measure ac.label) (measure ac.subLabel) / 2 - 5) =
      max (measure ac.label) (measure ac.subLabel) + 10 := by
  have hmax : (if measure ac.subLabel > measure ac.label
               then measure ac.subLabel else measure ac.label) =
      max (measure ac.label) (measure ac.subLabel) := by
    rcases lt_or_ge (measure ac.label) (measure ac.subLabel) with h | h
    · rw [if_pos h, max_eq_right h.le]
    · rw [if_neg (not_lt.mpr h), max_eq_left h]
  constructor
  · simp [drawLabelCalls, hmax]
  · ring

/-- C9: the projection output is identical for frame states differing only
in the field-of-view value: `fov` is read into the frame state but never
influences `ConvertTo2d`. -/
theorem convertTo2d_fov_independent (modern : Bool)
    (mWrld mProj : Fin 4 → Fin 4 → ℚ) (screenW screenH fov fov2 x y z : ℚ) :
    ConvertTo2d modern (read_matrices mWrld mProj screenW screenH fov) x y z
      = ConvertTo2d modern (read_matrices mWrld mProj screenW screenH fov2)
          x y z := by
  rfl

/-- C10: `XPMPSetAircraftLabelDist` stores the cut-off flag and
`max(dist_nm, 1) * 1852` meters, so the stored maximum label distance is
always at least 1852 m (1 NM); inputs below 1 NM are clamped, never
rejected. -/
theorem setAircraftLabelDist_clamps (glob : Glob) (dist_nm : ℚ)
    (bCut : Bool) :
    (XPMPSetAircraftLabelDist glob dist_nm bCut).maxLabelDist
        = max dist_nm 1 * 1852 ∧
    1852 ≤ (XPMPSetAircraftLabelDist glob dist_nm bCut).maxLabelDist ∧
    (XPMPSetAircraftLabelDist glob dist_nm bCut).bLabelCutOffAtVisibility
        = bCut := by
  refine ⟨rfl, ?_, rfl⟩
  have h1 : (1:ℚ) ≤ max dist_nm 1 := le_max_right _ _
  calc (1852:ℚ) = 1 * 1852 := by ring
    _ ≤ max dist_nm 1 * 1852 :=
        mul_le_mul_of_nonneg_right h1 (by norm_num)
    _ = (XPMPSetAircraftLabelDist glob dist_nm bCut).maxLabelDist := rfl

end XPMP2
